import Mathlib

/-!
Shallow embedding of the order–payment reconciliation core of the repository:
the `Order` lifecycle methods (`src/unnamed/part_002`, the Order model), the
`Dish` stock methods (`src/backend/models/Dish.js`), the pricing block of the
order-creation handler (`src/backend/routes/orders.js`), the gateway signing
and callback handling (`src/backend/services/paymentService.js`), the payment
routes (`src/backend/routes/payment.js`), and the `User` points and sign-in
methods (`src/unnamed/part_001`, the User model).

Monetary amounts are modelled as rationals (`ℚ`), point counts as integers,
timestamps as abstract integers. Methods that `throw` in the source return
`Except`; since all modelled state is passed explicitly, an `error` result
carries no mutated state, which is exactly the source's throw-before-save
behaviour.
-/

/-- Payment sub-status enum of the Order model (`payStatus` column). -/
inductive PayStatus
  | unpaid | paid | refunded | partRefunded
  deriving DecidableEq

/-- Business status enum of the Order model (`status` column). -/
inductive OrderStatus
  | pending | confirmed | preparing | ready | delivering | completed | cancelled | refunded
  deriving DecidableEq

/-- Delivery status enum of the Order model (`deliveryStatus` column). -/
inductive DeliveryStatus
  | pending | assigned | picked | delivering | delivered
  deriving DecidableEq

/-- Payment method enum of the Order model (`payMethod` column). -/
inductive PayMethod
  | wechat | alipay | balance | points
  deriving DecidableEq

/-- The fields of an Order row that the modelled methods read or write. -/
structure OrderS where
  orderNo : String
  userId : Nat
  subtotal : ℚ
  deliveryFee : ℚ
  discount : ℚ
  total : ℚ
  payAmount : ℚ
  payMethod : Option PayMethod
  payStatus : PayStatus
  payTime : Option ℤ
  status : OrderStatus
  deliveryStatus : DeliveryStatus
  deliveryTaskId : Option Nat
  actualDeliveryTime : Option ℤ
  cancelReason : Option String
  cancelTime : Option ℤ
  refundReason : Option String
  refundTime : Option ℤ
  refundAmount : ℚ
  pointsEarned : ℤ
  pointsUsed : Nat
  couponAmount : ℚ
  deriving DecidableEq

/-- The single error the Order lifecycle methods throw (`订单状态不正确`),
which the design document names `InvalidStateTransition`. -/
inductive TrError
  | invalidState
  deriving DecidableEq

/-- `Order.prototype.confirm`: requires `pending`, sets `confirmed`. -/
def Order.confirm (o : OrderS) : Except TrError OrderS :=
  if o.status = .pending then .ok { o with status := .confirmed }
  else .error .invalidState

/-- `Order.prototype.startPreparing`: requires `confirmed`, sets `preparing`. -/
def Order.startPreparing (o : OrderS) : Except TrError OrderS :=
  if o.status = .confirmed then .ok { o with status := .preparing }
  else .error .invalidState

/-- `Order.prototype.ready`: requires `preparing`, sets `ready`. -/
def Order.ready (o : OrderS) : Except TrError OrderS :=
  if o.status = .preparing then .ok { o with status := .ready }
  else .error .invalidState

/-- `Order.prototype.startDelivery`: requires `ready`, sets `delivering` and
records the delivery task id. -/
def Order.startDelivery (taskId : Nat) (o : OrderS) : Except TrError OrderS :=
  if o.status = .ready then
    .ok { o with status := .delivering, deliveryStatus := .delivering,
                 deliveryTaskId := some taskId }
  else .error .invalidState

/-- `Order.prototype.completeDelivery`: requires `delivering`, sets `completed`
and records the actual delivery time. -/
def Order.completeDelivery (now : ℤ) (o : OrderS) : Except TrError OrderS :=
  if o.status = .delivering then
    .ok { o with status := .completed, deliveryStatus := .delivered,
                 actualDeliveryTime := some now }
  else .error .invalidState

/-- `Order.prototype.cancel`: requires `pending` or `confirmed`, sets
`cancelled` and records reason and time. -/
def Order.cancel (reason : String) (now : ℤ) (o : OrderS) : Except TrError OrderS :=
  if o.status = .pending ∨ o.status = .confirmed then
    .ok { o with status := .cancelled, cancelReason := some reason, cancelTime := some now }
  else .error .invalidState

/-- `Order.prototype.requestRefund`: requires `completed`, sets `refunded` and
records reason, time and the full `payAmount` as refund amount. -/
def Order.requestRefund (reason : String) (now : ℤ) (o : OrderS) : Except TrError OrderS :=
  if o.status = .completed then
    .ok { o with status := .refunded, refundReason := some reason, refundTime := some now,
                 refundAmount := o.payAmount }
  else .error .invalidState

/-- The state update `Order.prototype.paySuccess` performs: it has no guard in
the source — it unconditionally marks the order paid and confirmed and
overwrites `payMethod` and `payTime`. -/
def Order.paySuccessApply (m : PayMethod) (now : ℤ) (o : OrderS) : OrderS :=
  { o with payStatus := .paid, payMethod := some m, payTime := some now,
           status := .confirmed }

/-- `Order.prototype.paySuccess`, in the same `Except` shape as the other
lifecycle methods; the source method contains no throw, so it always succeeds. -/
def Order.paySuccess (m : PayMethod) (now : ℤ) (o : OrderS) : Except TrError OrderS :=
  .ok (Order.paySuccessApply m now o)

/-- Labels for the seven guarded lifecycle methods of the Order model. -/
inductive OrderAction
  | confirm
  | startPreparing
  | ready
  | startDelivery (taskId : Nat)
  | completeDelivery (now : ℤ)
  | cancel (reason : String) (now : ℤ)
  | requestRefund (reason : String) (now : ℤ)

/-- Dispatch of a guarded lifecycle method on an order. -/
def applyAction : OrderAction → OrderS → Except TrError OrderS
  | .confirm, o => Order.confirm o
  | .startPreparing, o => Order.startPreparing o
  | .ready, o => Order.ready o
  | .startDelivery taskId, o => Order.startDelivery taskId o
  | .completeDelivery now, o => Order.completeDelivery now o
  | .cancel reason now, o => Order.cancel reason now o
  | .requestRefund reason now, o => Order.requestRefund reason now o

/-- The allowed business-status transition set of the design document (§4.1):
the forward chain, cancellation from `pending`/`confirmed`, and refund from
`completed`. -/
def allowedTransition : OrderStatus → OrderStatus → Bool
  | .pending, .confirmed => true
  | .confirmed, .preparing => true
  | .preparing, .ready => true
  | .ready, .delivering => true
  | .delivering, .completed => true
  | .pending, .cancelled => true
  | .confirmed, .cancelled => true
  | .completed, .refunded => true
  | _, _ => false

/-- The error `Dish.prototype.decreaseStock` throws (`库存不足`), named
`InsufficientStock` in the design document. -/
inductive StockError
  | insufficientStock
  deriving DecidableEq

/-- `Dish.prototype.decreaseStock`: no-op when stock is the `-1` unlimited
sentinel; otherwise fails when `stock < quantity`, else decrements. The
returned value is the dish's stock after the call. -/
def Dish.decreaseStock (stock : ℤ) (quantity : ℕ) : Except StockError ℤ :=
  if stock ≠ -1 then
    if stock < (quantity : ℤ) then .error .insufficientStock
    else .ok (stock - (quantity : ℤ))
  else .ok stock

/-- `Dish.prototype.increaseStock`: no-op when unlimited, else increments. -/
def Dish.increaseStock (stock : ℤ) (quantity : ℕ) : ℤ :=
  if stock ≠ -1 then stock + (quantity : ℤ) else stock

/-- `Dish.prototype.hasStock`. -/
def Dish.hasStock (stock : ℤ) (quantity : ℕ) : Bool :=
  stock == -1 || decide ((quantity : ℤ) ≤ stock)

/-- The four totals the order-creation handler computes. -/
structure Pricing where
  couponAmount : ℚ
  discount : ℚ
  total : ℚ
  payAmount : ℚ
  deriving DecidableEq

/-- The pricing block of the `POST /orders` handler: the mocked coupon amount 5
when a coupon id is supplied, points at the fixed rate `0.01`, total as
`subtotal + deliveryFee`, pay amount clamped at zero. The two `if`s mirror the
handler's truthiness tests on `couponId` and `pointsUsed`. -/
def orderPricing (subtotal deliveryFee : ℚ) (couponGiven : Bool) (pointsUsed : ℕ) : Pricing :=
  let couponAmount : ℚ := if couponGiven then 5 else 0
  let d₁ : ℚ := if couponGiven then 0 + couponAmount else 0
  let discount : ℚ := if pointsUsed ≠ 0 then d₁ + (pointsUsed : ℚ) * (1 / 100) else d₁
  let total : ℚ := subtotal + deliveryFee
  { couponAmount := couponAmount, discount := discount, total := total,
    payAmount := max 0 (total - discount) }

/-- `Order.prototype.calculateDiscount`: coupon amount (when truthy) plus
points at the fixed rate `0.01` (when truthy). -/
def Order.calculateDiscount (couponAmount : ℚ) (pointsUsed : ℕ) : ℚ :=
  let d₁ : ℚ := if couponAmount ≠ 0 then 0 + couponAmount else 0
  if pointsUsed ≠ 0 then d₁ + (pointsUsed : ℚ) * (1 / 100) else d₁

/-- `Order.prototype.calculatePayAmount`: `max(0, total - calculateDiscount())`. -/
def Order.calculatePayAmount (total couponAmount : ℚ) (pointsUsed : ℕ) : ℚ :=
  max 0 (total - Order.calculateDiscount couponAmount pointsUsed)

/-- Outcome of the `POST /payment/refund` handler: the order's (possibly
updated) row, whether the gateway refund call was made, and whether the
request succeeded. -/
structure RefundResult where
  order : OrderS
  gatewayCalled : Bool
  ok : Bool
  deriving DecidableEq

/-- The `POST /payment/refund` handler after authentication and input
validation: statuses other than `completed` are rejected, then amounts above
`payAmount` are rejected, both before the gateway call; only then is the
gateway refund requested, and on gateway success the order is marked
refunded. -/
def refundRoute (o : OrderS) (refundAmount : ℚ) (gatewayOk : Bool) (reason : String)
    (now : ℤ) : RefundResult :=
  if o.status ≠ .completed then ⟨o, false, false⟩
  else if refundAmount > o.payAmount then ⟨o, false, false⟩
  else if gatewayOk then
    ⟨{ o with status := .refunded, refundReason := some reason, refundTime := some now,
              refundAmount := refundAmount }, true, true⟩
  else ⟨o, true, false⟩

/-- Point-record type enum (`type` column of the PointRecord model). -/
inductive PType
  | earn | spend
  deriving DecidableEq

/-- A PointRecord ledger row: user, kind, signed delta, reason, and the
post-entry running balance. -/
structure PRecord where
  userId : Nat
  typ : PType
  points : ℤ
  reason : String
  balance : ℤ
  deriving DecidableEq

/-- The fields of a User row that the modelled methods read or write. -/
structure UserS where
  id : Nat
  points : ℤ
  totalPoints : ℤ
  totalSpent : ℚ
  signInCount : ℕ
  lastSignInAt : Option ℤ
  deriving DecidableEq

/-- `User.prototype.addPoints`: increments current and lifetime point totals
and appends one `earn` PointRecord whose balance is the new current total. -/
def User.addPoints (u : UserS) (ledger : List PRecord) (p : ℤ) (reason : String) :
    UserS × List PRecord :=
  let u' := { u with points := u.points + p, totalPoints := u.totalPoints + p }
  (u', ledger ++ [{ userId := u.id, typ := .earn, points := p, reason := reason,
                    balance := u'.points }])

/-- `User.prototype.updateSpent`: adds the paid amount to `totalSpent`. -/
def User.updateSpent (u : UserS) (amount : ℚ) : UserS :=
  { u with totalSpent := u.totalSpent + amount }

/-- The error `User.prototype.signIn` throws on a same-day repeat
(`今日已签到`), named `AlreadySignedInToday` in the design document. -/
inductive SignInError
  | alreadySignedInToday
  deriving DecidableEq

/-- `User.prototype.signIn`. Calendar days are modelled as integers (the
source compares `toDateString()` values; `today - 1` is the prior calendar
day, which the source obtains as now minus 24 hours). Fails when the last
sign-in was today; otherwise the streak grows by one exactly when the last
sign-in was the prior day, the reward (`SIGN_IN_POINTS`, default 5) is granted
through `addPoints`, and the result carries the awarded points and streak as
the source returns them. -/
def User.signIn (signInPoints : ℤ) (today : ℤ) (u : UserS) (ledger : List PRecord) :
    Except SignInError (UserS × List PRecord × ℤ × ℕ) :=
  if u.lastSignInAt = some today then .error .alreadySignedInToday
  else
    let streak := if u.lastSignInAt = some (today - 1) then u.signInCount + 1 else 1
    let u₁ := { u with signInCount := streak, lastSignInAt := some today }
    let r := User.addPoints u₁ ledger signInPoints "签到奖励"
    .ok (r.1, r.2, signInPoints, streak)

/-- A parsed gateway message: JS object fields as key/value pairs, where
`none` stands for a missing (`undefined`) or `null` value. -/
abbrev Params := List (String × Option String)

/-- Field access `params[key]` on a parsed gateway message. -/
def lookupV (k : String) (ps : Params) : Option String :=
  (ps.lookup k).join

/-- Insertion step of the key sort `Object.keys(params).sort()` performs
(lexicographic string order). -/
def insertKey (x : String) : List String → List String
  | [] => [x]
  | y :: ys => if x < y then x :: y :: ys else y :: insertKey x ys

/-- The sorted key list `Object.keys(params).sort()`. -/
def sortKeys (ks : List String) : List String :=
  ks.foldr insertKey []

/-- `PaymentService.generateSign`, step 2: fold over the sorted keys building
`key=value&` for every field whose value is neither the empty string nor
null/undefined and whose key is not `sign`, then append `key=<secret>`. -/
def signStr (ps : Params) (secret : String) : String :=
  ((sortKeys (ps.map Prod.fst)).foldl
      (fun acc k =>
        match lookupV k ps with
        | some v => if v ≠ "" ∧ k ≠ "sign" then acc ++ (k ++ "=" ++ v ++ "&") else acc
        | none => acc)
      "")
    ++ ("key=" ++ secret)

/-- `PaymentService.generateSign`: the uppercase hex digest of the canonical
string. The MD5 hex digest itself is the `crypto` library routine, external to
the repository, so it is a parameter `md5hex`; everything the repository
computes around it is modelled exactly. -/
def generateSign (md5hex : String → String) (ps : Params) (secret : String) : String :=
  (md5hex (signStr ps secret)).toUpper

/-- `PaymentService.verifySign`: recompute over the received fields with the
shared secret and compare with the received `sign` field (`none` when the
message carries no `sign` field, which never compares equal to a string). -/
def verifySign (md5hex : String → String) (payKey : String) (ps : Params)
    (sign : Option String) : Bool :=
  some (generateSign md5hex ps payKey) == sign

/-- Modelled from the spec (§4.2 outbound request signing): the canonical
string described as sorting the parameter keys, concatenating `key=value&` for
every non-empty, non-null, non-`sign` field, and appending `key=<secret>`
last. Stated independently of the source's accumulator fold so the two can be
compared. -/
def specSignStr (ps : Params) (secret : String) : String :=
  String.join
      (((sortKeys (ps.map Prod.fst)).filter
          (fun k =>
            match lookupV k ps with
            | some v => decide (v ≠ "" ∧ k ≠ "sign")
            | none => false)).map
        (fun k => k ++ "=" ++ ((lookupV k ps).getD "") ++ "&"))
    ++ ("key=" ++ secret)

/-- The decimal digit character for `n < 10`. -/
def digitChar (n : ℕ) : Char :=
  Char.ofNat (48 + n)

/-- Decimal string of a natural number below 10000 — the embedding of JS
number-to-string conversion on the domain the order-number generator uses
(year, month, day, and the random draw are all below 10000). -/
def decStr (n : ℕ) : String :=
  if n < 10 then String.mk [digitChar n]
  else if n < 100 then String.mk [digitChar (n / 10), digitChar (n % 10)]
  else if n < 1000 then
    String.mk [digitChar (n / 100), digitChar (n / 10 % 10), digitChar (n % 10)]
  else
    String.mk [digitChar (n / 1000), digitChar (n / 100 % 10), digitChar (n / 10 % 10),
               digitChar (n % 10)]

/-- JS `padStart(w, '0')`. -/
def padZero (w : ℕ) (s : String) : String :=
  String.mk (List.replicate (w - s.length) '0') ++ s

/-- Two-digit zero-padded field (month, day). -/
def pad2 (n : ℕ) : String := padZero 2 (decStr n)

/-- Four-digit zero-padded field (the random draw). -/
def pad4 (n : ℕ) : String := padZero 4 (decStr n)

/-- A calendar date as the generator reads it from `new Date()`. -/
structure DateYMD where
  year : ℕ
  month : ℕ
  day : ℕ
  deriving DecidableEq

/-- `generateOrderNo` of the Order model: full year, zero-padded month and
day, then the four-digit zero-padded random draw `Math.floor(Math.random() * 10000)`. -/
def generateOrderNo (d : DateYMD) (random : ℕ) : String :=
  decStr d.year ++ pad2 d.month ++ pad2 d.day ++ pad4 random

/-- Insertion of a new order row subject to the `unique: true` constraint the
Order model declares on `orderNo`: inserting a duplicate order number makes
the insert fail and stores nothing. The store is the list of order numbers of
existing rows. -/
def insertOrderNo (store : List String) (orderNo : String) : Except Unit (List String) :=
  if orderNo ∈ store then .error () else .ok (store ++ [orderNo])

/-- Order creation as the `beforeCreate` hook plus the insert perform it:
generate the order number from the current date and the random draw, then
insert under the unique constraint. -/
def createOrderNo (store : List String) (d : DateYMD) (random : ℕ) :
    Except Unit (List String) :=
  insertOrderNo store (generateOrderNo d random)

/-- The modelled system state the payment routes touch: the order under
settlement, its user, the PointRecord ledger, and whether the
`payment_notify:<orderNo>` dedup key is cached in redis. -/
structure PaySys where
  order : OrderS
  user : UserS
  ledger : List PRecord
  notifyCache : Bool
  deriving DecidableEq

/-- The settlement block both payment routes run on a confirmed payment:
`order.paySuccess('wechat')`, `user.updateSpent(order.payAmount)`, then
`pointsEarned = Math.floor(order.payAmount * pointsRate)` and — only when
positive — `user.addPoints(pointsEarned, '消费奖励')` and recording
`pointsEarned` on the order. -/
def settle (rate : ℚ) (now : ℤ) (s : PaySys) : PaySys :=
  let o₁ := Order.paySuccessApply .wechat now s.order
  let u₁ := User.updateSpent s.user s.order.payAmount
  let pe : ℤ := Int.floor (s.order.payAmount * rate)
  if 0 < pe then
    let r := User.addPoints u₁ s.ledger pe "消费奖励"
    { s with order := { o₁ with pointsEarned := pe }, user := r.1, ledger := r.2 }
  else
    { s with order := o₁, user := u₁ }

/-- The service-level result of `PaymentService.handlePaymentNotify`: on the
duplicate-callback path the source returns `{ success: true, message: '重复回调' }`
without an `out_trade_no`, so `orderNo` is `none` there. -/
structure NotifyResult where
  orderNo : Option String
  deriving DecidableEq

/-- `PaymentService.handlePaymentNotify` on a parsed callback: signature
verification (hard failure on mismatch), `return_code` and `result_code`
checks, then the five-minute redis dedup window keyed by the order number —
a cached order number short-circuits to a success result with no order
number, otherwise the key is cached and the order number is returned. -/
def handlePaymentNotify (md5hex : String → String) (payKey : String) (ps : Params)
    (s : PaySys) : Except String (NotifyResult × PaySys) :=
  if verifySign md5hex payKey ps (lookupV "sign" ps) = false then .error "签名验证失败"
  else if lookupV "return_code" ps ≠ some "SUCCESS" then .error "支付失败"
  else if lookupV "result_code" ps ≠ some "SUCCESS" then .error "支付失败"
  else if s.notifyCache then .ok ({ orderNo := none }, s)
  else .ok ({ orderNo := lookupV "out_trade_no" ps }, { s with notifyCache := true })

/-- The `POST /payment/notify` route: on a service error it answers the FAIL
acknowledgment with no state change; on a service success it settles only an
order found by the returned order number that is still `unpaid`, and answers
the SUCCESS acknowledgment either way. The returned Bool is the
acknowledgment (`true` = `return_code SUCCESS`). -/
def notifyRoute (md5hex : String → String) (payKey : String) (rate : ℚ) (now : ℤ)
    (ps : Params) (s : PaySys) : PaySys × Bool :=
  match handlePaymentNotify md5hex payKey ps s with
  | .error _ => (s, false)
  | .ok (res, s₁) =>
      if res.orderNo = some s₁.order.orderNo ∧ s₁.order.payStatus = .unpaid then
        (settle rate now s₁, true)
      else (s₁, true)

/-- The possible bodies of the `GET /payment/status/:orderNo` response. -/
inductive PollResp
  | alreadyPaid | settled | stillUnpaid | unknown
  deriving DecidableEq

/-- The `GET /payment/status/:orderNo` route: an order already `paid` is
answered directly without querying the gateway; otherwise the gateway is
queried and a `trade_state` of SUCCESS triggers the same settlement block as
the callback. -/
def statusRoute (rate : ℚ) (now : ℤ) (wxReturn wxResult tradeState : String)
    (s : PaySys) : PaySys × PollResp :=
  if s.order.payStatus = .paid then (s, .alreadyPaid)
  else if wxReturn = "SUCCESS" ∧ wxResult = "SUCCESS" then
    if tradeState = "SUCCESS" then (settle rate now s, .settled)
    else (s, .stillUnpaid)
  else (s, .unknown)

/-- A concrete completed, paid order used to instantiate theorems. -/
def sampleOrder : OrderS :=
  { orderNo := "202610110001", userId := 1, subtotal := 95, deliveryFee := 5,
    discount := 7, total := 100, payAmount := 100, payMethod := some .wechat,
    payStatus := .paid, payTime := some 0, status := .completed,
    deliveryStatus := .delivered, deliveryTaskId := some 1,
    actualDeliveryTime := some 0, cancelReason := none, cancelTime := none,
    refundReason := none, refundTime := none, refundAmount := 0,
    pointsEarned := 5, pointsUsed := 200, couponAmount := 5 }

/-- C10: `Order.paySuccess` enforces no precondition — from every business
status and payment status it succeeds, sets `payStatus` to `paid` and `status`
to `confirmed`, and overwrites `payMethod` and `payTime` with fresh values,
leaving every other field unchanged. -/
theorem C10_paySuccess_unguarded (m : PayMethod) (t : ℤ) (o : OrderS) :
    Order.paySuccess m t o =
      .ok { o with payStatus := .paid, payMethod := some m, payTime := some t,
                   status := .confirmed } := rfl

/-- C2: for finite stock `s ≥ 0`, `decreaseStock` succeeds exactly when the
requested quantity is at most `s` and then leaves `s - q`; the `-1` sentinel
always succeeds unchanged; on `q > s` it fails with `InsufficientStock` (and,
the methods being pure state transformers here, an error leaves the stored
stock untouched). -/
theorem C2_decreaseStock (s : ℤ) (q : ℕ) (hs : 0 ≤ s) :
    ((∃ s', Dish.decreaseStock s q = .ok s') ↔ (q : ℤ) ≤ s) ∧
    ((q : ℤ) ≤ s → Dish.decreaseStock s q = .ok (s - (q : ℤ))) ∧
    (s < (q : ℤ) → Dish.decreaseStock s q = .error .insufficientStock) ∧
    Dish.decreaseStock (-1) q = .ok (-1) ∧
    (Dish.hasStock s q = true ↔ (q : ℤ) ≤ s) := by
  have hne : s ≠ -1 := by omega
  refine ⟨?_, ?_, ?_, ?_, ?_⟩
  · constructor
    · rintro ⟨s', hs'⟩
      by_cases h : s < (q : ℤ)
      · simp [Dish.decreaseStock, hne, h] at hs'
      · omega
    · intro h
      exact ⟨s - (q : ℤ), by simp [Dish.decreaseStock, hne, not_lt.mpr h]⟩
  · intro h
    simp [Dish.decreaseStock, hne, not_lt.mpr h]
  · intro h
    simp [Dish.decreaseStock, hne, h]
  · simp [Dish.decreaseStock]
  · have : (s == -1) = false := by simp [hne]
    simp [Dish.hasStock, this]

/-- Witness for C2 at concrete stock 3: reserving 2 succeeds leaving 1,
reserving 4 fails, and unlimited stock is untouched. -/
theorem C2_witness :
    Dish.decreaseStock 3 2 = .ok 1 ∧
    Dish.decreaseStock 3 4 = .error .insufficientStock ∧
    Dish.decreaseStock (-1) 7 = .ok (-1) := by
  have h2 := C2_decreaseStock 3 2 (by norm_num)
  have h4 := C2_decreaseStock 3 4 (by norm_num)
  refine ⟨?_, ?_, h4.2.2.2.1⟩
  · have := h2.2.1 (by norm_num)
    simpa using this
  · exact h4.2.2.1 (by norm_num)

/-- C3: in the order-creation pricing block, the discount is always the
coupon amount plus `pointsUsed × 0.01`, the total is `subtotal + deliveryFee`,
and the pay amount is `max 0 (total − discount)`; the Order model's
`calculateDiscount`/`calculatePayAmount` satisfy the same formulas; and the
concrete cart (subtotal 95, fee 5, coupon given, 200 points) prices to
discount 7, total 100, payAmount 93. -/
theorem C3_pricing (subtotal deliveryFee couponAmount total : ℚ)
    (couponGiven : Bool) (pointsUsed : ℕ) :
    (orderPricing subtotal deliveryFee couponGiven pointsUsed).discount =
      (orderPricing subtotal deliveryFee couponGiven pointsUsed).couponAmount +
        (pointsUsed : ℚ) * (1 / 100) ∧
    (orderPricing subtotal deliveryFee couponGiven pointsUsed).total =
      subtotal + deliveryFee ∧
    (orderPricing subtotal deliveryFee couponGiven pointsUsed).payAmount =
      max 0 ((orderPricing subtotal deliveryFee couponGiven pointsUsed).total -
        (orderPricing subtotal deliveryFee couponGiven pointsUsed).discount) ∧
    Order.calculateDiscount couponAmount pointsUsed =
      couponAmount + (pointsUsed : ℚ) * (1 / 100) ∧
    Order.calculatePayAmount total couponAmount pointsUsed =
      max 0 (total - (couponAmount + (pointsUsed : ℚ) * (1 / 100))) ∧
    orderPricing 95 5 true 200 = ⟨5, 7, 100, 93⟩ := by
  refine ⟨?_, ?_, ?_, ?_, ?_, ?_⟩
  · cases couponGiven <;> by_cases hp : pointsUsed = 0 <;>
      simp [orderPricing, hp]
  · cases couponGiven <;> by_cases hp : pointsUsed = 0 <;> simp [orderPricing, hp]
  · cases couponGiven <;> by_cases hp : pointsUsed = 0 <;> simp [orderPricing, hp]
  · by_cases hc : couponAmount = 0 <;> by_cases hp : pointsUsed = 0 <;>
      simp [Order.calculateDiscount, hc, hp]
  · by_cases hc : couponAmount = 0 <;> by_cases hp : pointsUsed = 0 <;>
      simp [Order.calculatePayAmount, Order.calculateDiscount, hc, hp]
  · simp only [orderPricing]
    norm_num

/-- C6: a refund request for more than `payAmount` is rejected with the
gateway never called and the order row returned unchanged; conversely the
gateway refund call is made only for a `completed` order with requested
amount at most `payAmount`. -/
theorem C6_refund_validation (o : OrderS) (amount : ℚ) (gatewayOk : Bool)
    (reason : String) (now : ℤ) :
    (o.payAmount < amount →
      refundRoute o amount gatewayOk reason now = ⟨o, false, false⟩) ∧
    ((refundRoute o amount gatewayOk reason now).gatewayCalled = true →
      o.status = .completed ∧ amount ≤ o.payAmount) := by
  constructor
  · intro h
    by_cases hs : o.status = .completed
    · simp [refundRoute, hs, h]
    · simp [refundRoute, hs]
  · intro h
    by_cases hs : o.status = .completed
    · by_cases ha : amount ≤ o.payAmount
      · exact ⟨hs, ha⟩
      · simp [refundRoute, hs, lt_of_not_le ha] at h
    · simp [refundRoute, hs] at h

/-- Witness for C6, the concrete case of the design document: a refund of 120
against a `payAmount` of 100 is rejected before any gateway call. -/
theorem C6_witness :
    refundRoute sampleOrder 120 true "quality issue" 7 =
      ⟨sampleOrder, false, false⟩ := by
  have h := C6_refund_validation sampleOrder 120 true "quality issue" 7
  exact h.1 (by norm_num [sampleOrder])

/-- C4 counterexample: `paySuccess` is itself a business-status transition
attempt (it writes `status := confirmed`), `completed → confirmed` is outside
the allowed set, and yet the operation succeeds and changes the status — so
the claim's quantification over every transition attempt fails on the
unguarded `paySuccess`. -/
theorem C4_counterexample :
    allowedTransition .completed .confirmed = false ∧
    sampleOrder.status = .completed ∧
    Order.paySuccess .wechat 1 sampleOrder =
      .ok { sampleOrder with
            payStatus := .paid, payMethod := some .wechat,
            payTime := some 1, status := .confirmed } ∧
    ({ sampleOrder with
       payStatus := PayStatus.paid, payMethod := some PayMethod.wechat,
       payTime := some 1, status := OrderStatus.confirmed } : OrderS).status ≠
      sampleOrder.status :=
  ⟨rfl, rfl, rfl, by simp [sampleOrder]⟩

/-- C4 (amended): for the seven guarded lifecycle methods (`confirm`,
`startPreparing`, `ready`, `startDelivery`, `completeDelivery`, `cancel`,
`requestRefund`), every attempt whose status change is outside the allowed set
fails with the invalid-state error — equivalently, every successful attempt is
an allowed transition — and the pure `Except` embedding means a failing
attempt returns no modified order; in particular `cancel` fails from every
status other than `pending` and `confirmed`. The unguarded `paySuccess` is
excluded (see the counterexample). -/
theorem C4_guarded_transitions (a : OrderAction) (o : OrderS) (r : String) (t : ℤ) :
    (match applyAction a o with
      | .ok o' => allowedTransition o.status o'.status = true
      | .error e => e = TrError.invalidState) ∧
    (o.status ≠ .pending → o.status ≠ .confirmed →
      Order.cancel r t o = .error .invalidState) := by
  constructor
  · cases a with
    | confirm =>
        by_cases h : o.status = .pending <;>
          simp [applyAction, Order.confirm, h, allowedTransition]
    | startPreparing =>
        by_cases h : o.status = .confirmed <;>
          simp [applyAction, Order.startPreparing, h, allowedTransition]
    | ready =>
        by_cases h : o.status = .preparing <;>
          simp [applyAction, Order.ready, h, allowedTransition]
    | startDelivery taskId =>
        by_cases h : o.status = .ready <;>
          simp [applyAction, Order.startDelivery, h, allowedTransition]
    | completeDelivery now =>
        by_cases h : o.status = .delivering <;>
          simp [applyAction, Order.completeDelivery, h, allowedTransition]
    | cancel reason now =>
        by_cases h : o.status = .pending ∨ o.status = .confirmed
        · rcases h with h | h <;> simp [applyAction, Order.cancel, h, allowedTransition]
        · simp [applyAction, Order.cancel, h]
    | requestRefund reason now =>
        by_cases h : o.status = .completed <;>
          simp [applyAction, Order.requestRefund, h, allowedTransition]
  · intro h1 h2
    simp [Order.cancel, h1, h2]

/-- Witness for C4 (amended) at a concrete completed order: cancelling fails
with the invalid-state error, and the guarded dispatch result for that attempt
is covered by the theorem. -/
theorem C4_witness :
    Order.cancel "changed my mind" 5 sampleOrder = .error .invalidState := by
  have h := C4_guarded_transitions (.cancel "changed my mind" 5) sampleOrder
    "changed my mind" 5
  exact h.2 (by simp [sampleOrder]) (by simp [sampleOrder])

/-- C8: `signIn` fails exactly when the last sign-in date is today; otherwise
the streak becomes `priorStreak + 1` when the last sign-in was the prior
calendar day and 1 otherwise, and the fixed reward is granted through one
`earn` ledger entry that raises the point balance by the reward. -/
theorem C8_signIn (pts today : ℤ) (u : UserS) (ledger : List PRecord) :
    (u.lastSignInAt = some today →
      User.signIn pts today u ledger = .error .alreadySignedInToday) ∧
    (u.lastSignInAt ≠ some today →
      User.signIn pts today u ledger =
        .ok ({ u with
               signInCount :=
                 if u.lastSignInAt = some (today - 1) then u.signInCount + 1 else 1,
               lastSignInAt := some today,
               points := u.points + pts, totalPoints := u.totalPoints + pts },
             ledger ++ [{ userId := u.id, typ := .earn, points := pts,
                          reason := "签到奖励", balance := u.points + pts }],
             pts,
             if u.lastSignInAt = some (today - 1) then u.signInCount + 1 else 1)) := by
  constructor
  · intro h
    simp [User.signIn, h]
  · intro h
    simp [User.signIn, h, User.addPoints]

/-- Witness for C8: a user who last signed in on day 99 with streak 3 signs in
on day 100 — streak becomes 4 and a 5-point earn entry is appended; signing in
again on day 99 (the recorded last sign-in day) fails. -/
theorem C8_witness :
    User.signIn 5 100 ⟨1, 10, 30, 0, 3, some 99⟩ [] =
      .ok (⟨1, 15, 35, 0, 4, some 100⟩,
           [{ userId := 1, typ := .earn, points := 5, reason := "签到奖励", balance := 15 }],
           5, 4) ∧
    User.signIn 5 99 ⟨1, 10, 30, 0, 3, some 99⟩ [] = .error .alreadySignedInToday := by
  constructor
  · have h := (C8_signIn 5 100 ⟨1, 10, 30, 0, 3, some 99⟩ []).2 (by simp)
    simpa using h
  · exact (C8_signIn 5 99 ⟨1, 10, 30, 0, 3, some 99⟩ []).1 rfl

/-- Digit characters are digits. -/
theorem isDigit_digitChar (n : ℕ) (h : n < 10) : (digitChar n).isDigit = true := by
  interval_cases n <;> decide

/-- Length of the decimal string of a four-digit number. -/
theorem decStr_length_of_thousand (n : ℕ) (h1 : 1000 ≤ n) (h2 : n < 10000) :
    (decStr n).length = 4 := by
  simp [decStr, show ¬ n < 10 by omega, show ¬ n < 100 by omega, show ¬ n < 1000 by omega]

/-- Length of the zero-padded two-digit field. -/
theorem pad2_length (n : ℕ) (h : n < 100) : (pad2 n).length = 2 := by
  by_cases h1 : n < 10
  · simp [pad2, padZero, decStr, h1]
    rfl
  · simp [pad2, padZero, decStr, h1, h]

/-- Length of the zero-padded four-digit field. -/
theorem pad4_length (n : ℕ) (_h : n < 10000) : (pad4 n).length = 4 := by
  by_cases h1 : n < 10
  · simp [pad4, padZero, decStr, h1]
    rfl
  · by_cases h2 : n < 100
    · simp [pad4, padZero, decStr, h1, h2]
      rfl
    · by_cases h3 : n < 1000
      · simp [pad4, padZero, decStr, h1, h2, h3]
        rfl
      · simp [pad4, padZero, decStr, h1, h2, h3]

/-- Every character of the decimal string is a digit (for `n < 10000`). -/
theorem decStr_all_digits (n : ℕ) (h : n < 10000) :
    (decStr n).data.all Char.isDigit = true := by
  by_cases h1 : n < 10
  · simp [decStr, h1, isDigit_digitChar, h1]
  · by_cases h2 : n < 100
    · simp [decStr, h1, h2, isDigit_digitChar, Nat.mod_lt, show n / 10 < 10 by omega]
    · by_cases h3 : n < 1000
      · simp [decStr, h1, h2, h3, isDigit_digitChar, Nat.mod_lt,
          show n / 100 < 10 by omega, show n / 10 % 10 < 10 by omega,
          show n % 10 < 10 by omega]
      · simp [decStr, h1, h2, h3, isDigit_digitChar,
          show n / 1000 < 10 by omega, show n / 100 % 10 < 10 by omega,
          show n / 10 % 10 < 10 by omega, show n % 10 < 10 by omega]

/-- Every character of a zero-padded field is a digit (for `n < 10000`). -/
theorem padZero_all_digits (w n : ℕ) (h : n < 10000) :
    (padZero w (decStr n)).data.all Char.isDigit = true := by
  have hd := decStr_all_digits n h
  simp only [padZero, String.data_append, List.all_append]
  refine (Bool.and_eq_true _ _).mpr ⟨?_, hd⟩
  simp only [List.all_eq_true]
  intro c hc
  have hc0 := List.eq_of_mem_replicate hc
  subst hc0
  decide

/-- C9: every generated order number is the current date — four-digit year,
zero-padded month and day — followed by four random digits (twelve digit
characters in all), and the `unique` constraint on `orderNo` keeps stored
order numbers globally unique: a successful insert preserves no-duplicates,
so no two created orders ever receive the same order number. -/
theorem C9_orderNo_format_unique (store : List String) (d : DateYMD) (r : ℕ)
    (hy1 : 1000 ≤ d.year) (hy2 : d.year < 10000) (hm : d.month < 100)
    (hd : d.day < 100) (hr : r < 10000) (hnd : store.Nodup) :
    generateOrderNo d r = decStr d.year ++ pad2 d.month ++ pad2 d.day ++ pad4 r ∧
    (generateOrderNo d r).length = 12 ∧
    (generateOrderNo d r).data.all Char.isDigit = true ∧
    (∀ store', createOrderNo store d r = .ok store' → store'.Nodup) := by
  refine ⟨rfl, ?_, ?_, ?_⟩
  · simp [generateOrderNo, String.length_append,
      decStr_length_of_thousand d.year hy1 hy2, pad2_length d.month hm,
      pad2_length d.day hd, pad4_length r hr]
  · simp only [generateOrderNo, String.data_append, List.all_append]
    simp [decStr_all_digits d.year hy2, pad2, pad4,
      padZero_all_digits 2 d.month (by omega), padZero_all_digits 2 d.day (by omega),
      padZero_all_digits 4 r (by omega)]
  · intro store' hok
    simp only [createOrderNo, insertOrderNo] at hok
    by_cases hmem : generateOrderNo d r ∈ store
    · simp [hmem] at hok
    · simp [hmem] at hok
      subst hok
      simp [List.nodup_append, hnd, hmem]

/-- Witness for C9 at the concrete date 2026-10-11 with random draw 123
against a one-row store. -/
theorem C9_witness :
    (generateOrderNo ⟨2026, 10, 11⟩ 123).length = 12 ∧
    (∀ store', createOrderNo ["202610110001"] ⟨2026, 10, 11⟩ 123 = .ok store' →
      store'.Nodup) := by
  have h := C9_orderNo_format_unique ["202610110001"] ⟨2026, 10, 11⟩ 123
    (by norm_num) (by norm_num) (by norm_num) (by norm_num) (by norm_num) (by simp)
  exact ⟨h.2.1, h.2.2.2⟩

/-- Folding string concatenation from any start equals appending the join. -/
theorem join_foldl (xs : List String) :
    ∀ acc : String, xs.foldl (fun r s => r ++ s) acc = acc ++ String.join xs := by
  induction xs with
  | nil => intro acc; simp [String.join]
  | cons x xs ih =>
    intro acc
    have hx : String.join (x :: xs) = x ++ String.join xs := by
      show (x :: xs).foldl (fun r s => r ++ s) "" = x ++ String.join xs
      rw [List.foldl_cons, ih ("" ++ x), String.empty_append]
    rw [List.foldl_cons, ih (acc ++ x), hx, String.append_assoc]

/-- Join of a cons. -/
theorem join_cons (x : String) (xs : List String) :
    String.join (x :: xs) = x ++ String.join xs := by
  show (x :: xs).foldl (fun r s => r ++ s) "" = x ++ String.join xs
  rw [List.foldl_cons, join_foldl, String.empty_append]

/-- The accumulator fold of `generateSign` builds exactly the concatenation of
the `key=value&` pieces of the kept fields, in key order. -/
theorem signStr_foldl (ps : Params) (ks : List String) (acc : String) :
    ks.foldl
        (fun acc k =>
          match lookupV k ps with
          | some v => if v ≠ "" ∧ k ≠ "sign" then acc ++ (k ++ "=" ++ v ++ "&") else acc
          | none => acc)
        acc
      = acc ++ String.join ((ks.filter
          (fun k =>
            match lookupV k ps with
            | some v => decide (v ≠ "" ∧ k ≠ "sign")
            | none => false)).map
          (fun k => k ++ "=" ++ ((lookupV k ps).getD "") ++ "&")) := by
  induction ks generalizing acc with
  | nil => simp [String.join]
  | cons k ks ih =>
    simp only [List.foldl_cons, List.filter_cons]
    cases hv : lookupV k ps with
    | none => simp [hv, ih]
    | some v =>
      rw [ih]
      by_cases hb : v ≠ "" ∧ k ≠ "sign"
      · simp [hv, hb, join_cons, String.append_assoc]
      · simp [hv, hb]

/-- C5: the computed gateway signature is the uppercase digest of exactly the
canonical string the design document describes (sorted keys, `key=value&` for
every non-empty, non-null, non-`sign` field, shared secret appended last), and
`verifySign` accepts a message precisely when its `sign` field equals the
recomputation over the received fields. -/
theorem C5_sign_canonicalization (md5hex : String → String) (ps : Params)
    (secret : String) :
    generateSign md5hex ps secret = (md5hex (specSignStr ps secret)).toUpper ∧
    (∀ (payKey : String) (sgn : Option String),
      verifySign md5hex payKey ps sgn = true ↔ sgn = some (generateSign md5hex ps payKey)) := by
  constructor
  · unfold generateSign signStr specSignStr
    rw [signStr_foldl, String.empty_append]
  · intro payKey sgn
    unfold verifySign
    rw [beq_iff_eq]
    exact eq_comm

/-- C1: for an unpaid order with a cold dedup cache, a valid payment callback
settles exactly once — one `unpaid → paid` transition (with `status`
confirmed and pay method/time recorded), one increment of the user's
`totalSpent` by the order's `payAmount`, and one `earn` ledger entry for the
points (positive by hypothesis) — and afterwards both a status poll and a
duplicate callback are recognized (order already paid, order number in the
dedup window) and short-circuit to a successful acknowledgment with no state
change. -/
theorem C1_settlement_idempotent (md5hex : String → String) (payKey : String)
    (ps : Params) (rate : ℚ) (now now₂ now₃ : ℤ) (wr wres ts : String) (s : PaySys)
    (h1 : s.order.payStatus = .unpaid)
    (h2 : s.notifyCache = false)
    (h3 : lookupV "sign" ps = some (generateSign md5hex ps payKey))
    (h4 : lookupV "return_code" ps = some "SUCCESS")
    (h5 : lookupV "result_code" ps = some "SUCCESS")
    (h6 : lookupV "out_trade_no" ps = some s.order.orderNo)
    (h7 : 0 < Int.floor (s.order.payAmount * rate)) :
    notifyRoute md5hex payKey rate now ps s =
      ({ order := { Order.paySuccessApply .wechat now s.order with
                    pointsEarned := Int.floor (s.order.payAmount * rate) },
         user := { s.user with
                   totalSpent := s.user.totalSpent + s.order.payAmount,
                   points := s.user.points + Int.floor (s.order.payAmount * rate),
                   totalPoints := s.user.totalPoints + Int.floor (s.order.payAmount * rate) },
         ledger := s.ledger ++
           [{ userId := s.user.id, typ := .earn,
              points := Int.floor (s.order.payAmount * rate), reason := "消费奖励",
              balance := s.user.points + Int.floor (s.order.payAmount * rate) }],
         notifyCache := true }, true) ∧
    statusRoute rate now₂ wr wres ts (notifyRoute md5hex payKey rate now ps s).1 =
      ((notifyRoute md5hex payKey rate now ps s).1, .alreadyPaid) ∧
    notifyRoute md5hex payKey rate now₃ ps (notifyRoute md5hex payKey rate now ps s).1 =
      ((notifyRoute md5hex payKey rate now ps s).1, true) := by
  have hv : verifySign md5hex payKey ps (lookupV "sign" ps) = true := by
    unfold verifySign
    rw [h3]
    exact beq_self_eq_true _
  have hsvc : handlePaymentNotify md5hex payKey ps s =
      .ok ({ orderNo := lookupV "out_trade_no" ps }, { s with notifyCache := true }) := by
    simp [handlePaymentNotify, hv, h4, h5, h2]
  have hroute1 : notifyRoute md5hex payKey rate now ps s =
      (settle rate now { s with notifyCache := true }, true) := by
    simp [notifyRoute, hsvc, h6, h1]
  have hsettle : settle rate now { s with notifyCache := true } =
      { order := { Order.paySuccessApply .wechat now s.order with
                   pointsEarned := Int.floor (s.order.payAmount * rate) },
        user := { s.user with
                  totalSpent := s.user.totalSpent + s.order.payAmount,
                  points := s.user.points + Int.floor (s.order.payAmount * rate),
                  totalPoints := s.user.totalPoints + Int.floor (s.order.payAmount * rate) },
        ledger := s.ledger ++
          [{ userId := s.user.id, typ := .earn,
             points := Int.floor (s.order.payAmount * rate), reason := "消费奖励",
             balance := s.user.points + Int.floor (s.order.payAmount * rate) }],
        notifyCache := true } := by
    simp [settle, User.updateSpent, User.addPoints, h7]
  have hfirst := hroute1.trans (by rw [hsettle])
  refine ⟨hfirst, ?_, ?_⟩
  · rw [hfirst]
    simp [statusRoute, Order.paySuccessApply]
  · rw [hfirst]
    have hv2 : verifySign md5hex payKey ps (lookupV "sign" ps) = true := hv
    simp [notifyRoute, handlePaymentNotify, hv2, h4, h5]

/-- C7: a payment callback whose recomputed signature does not match its
`sign` field (including a missing `sign` field) is rejected: the handler
answers the FAIL acknowledgment and no order, user or ledger state changes. -/
theorem C7_signature_mismatch (md5hex : String → String) (payKey : String)
    (ps : Params) (rate : ℚ) (now : ℤ) (s : PaySys)
    (h : lookupV "sign" ps ≠ some (generateSign md5hex ps payKey)) :
    notifyRoute md5hex payKey rate now ps s = (s, false) := by
  have hv : verifySign md5hex payKey ps (lookupV "sign" ps) = false := by
    unfold verifySign
    rw [beq_eq_false_iff_ne]
    exact fun hc => h hc.symm
  simp [notifyRoute, handlePaymentNotify, hv]

/-- A stand-in digest function for instantiating the signature theorems (the
digest itself is external to the repository). -/
def md5c : String → String := fun _ => "d41d8cd98f00b204e9800998ecf8427e"

/-- A concrete well-signed payment callback for the order below. -/
def psW : Params :=
  [("appid", some "wx123"), ("mch_id", some "m1"),
   ("out_trade_no", some "202610110001"),
   ("result_code", some "SUCCESS"), ("return_code", some "SUCCESS"),
   ("sign", some (String.toUpper "d41d8cd98f00b204e9800998ecf8427e")),
   ("total_fee", some "10000"), ("transaction_id", some "wxtid1")]

/-- A concrete system state holding one unpaid pending order of pay amount 100
for user 1 (50 spent so far, 10 points), an empty ledger, and a cold dedup
cache. -/
def sW : PaySys :=
  { order := { sampleOrder with
               payStatus := .unpaid, status := .pending, payMethod := none,
               payTime := none, pointsEarned := 0 },
    user := { id := 1, points := 10, totalPoints := 30, totalSpent := 50,
              signInCount := 0, lastSignInAt := none },
    ledger := [], notifyCache := false }

/-- Witness for C1 at the concrete state: the callback settles (order paid,
totalSpent 50 + 100, exactly one ledger entry) and the subsequent poll
short-circuits with no state change. -/
theorem C1_witness :
    (notifyRoute md5c "key" (1/20) 0 psW sW).1.order.payStatus = .paid ∧
    (notifyRoute md5c "key" (1/20) 0 psW sW).1.user.totalSpent = 150 ∧
    (notifyRoute md5c "key" (1/20) 0 psW sW).1.ledger.length = 1 ∧
    statusRoute (1/20) 1 "SUCCESS" "SUCCESS" "SUCCESS"
        (notifyRoute md5c "key" (1/20) 0 psW sW).1 =
      ((notifyRoute md5c "key" (1/20) 0 psW sW).1, .alreadyPaid) := by
  have hpe : (0 : ℤ) < Int.floor (sW.order.payAmount * (1/20 : ℚ)) := by
    have : sW.order.payAmount = 100 := rfl
    rw [this]
    have h5 : Int.floor ((100 : ℚ) * (1/20 : ℚ)) = 5 := by
      norm_num [Int.floor_eq_iff]
    omega
  have h := C1_settlement_idempotent md5c "key" psW (1/20) 0 1 2
    "SUCCESS" "SUCCESS" "SUCCESS" sW rfl rfl rfl rfl rfl rfl hpe
  obtain ⟨hfirst, hpoll, _⟩ := h
  refine ⟨?_, ?_, ?_, hpoll⟩
  · rw [hfirst]
    simp [Order.paySuccessApply]
  · rw [hfirst]
    have : sW.user.totalSpent = 50 := rfl
    simp [this, show sW.order.payAmount = 100 from rfl]
    norm_num
  · rw [hfirst]
    simp [show sW.ledger = [] from rfl]

/-- A concrete callback carrying no `sign` field at all. -/
def psBad : Params :=
  [("appid", some "wx123"), ("out_trade_no", some "202610110001"),
   ("result_code", some "SUCCESS"), ("return_code", some "SUCCESS"),
   ("total_fee", some "10000")]

/-- Witness for C7: the unsigned callback is answered with the FAIL
acknowledgment and the state is returned unchanged. -/
theorem C7_witness :
    notifyRoute md5c "key" (1/20) 0 psBad sW = (sW, false) := by
  refine C7_signature_mismatch md5c "key" psBad (1/20) 0 sW ?_
  have hnone : lookupV "sign" psBad = none := rfl
  rw [hnone]
  exact fun h => Option.noConfusion h
